import Mathlib

/-!
Verification of the sane-rs client wire codec and command layer.

The Rust source under src/src/lib.rs is embedded shallowly: a `Stream`
holds the remaining bytes the peer has sent (`input`) and the bytes the
client has written so far (`output`).  Bytes are natural numbers below
256.  Machine integers are modelled as `Int`/`Nat` with explicit
two-complement reduction modulo 2^32 where the Rust code performs
32-bit arithmetic.

Rust effects are modelled by `Outcome`:
  - `.ok v s`    — the function returned `Ok(v)` leaving the stream at `s`;
  - `.err e s`   — the function returned `Err(e)` leaving the stream at `s`;
  - `.panic s`   — the function panicked (an `unwrap()` on a failed read).

The modules `status.rs`, `types.rs` and `device.rs` of the repository are
not under src/; the definitions that correspond to them are modelled from
the spec and say so in their doc comments.
-/

namespace Sane

/-- A bidirectional byte stream: `input` is what remains to be read from
the peer, `output` is everything the client has written. -/
structure Stream where
  input : List Nat
  output : List Nat
deriving DecidableEq

/-- Big-endian 4-byte encoding of an unsigned 32-bit value. -/
def beBytes (v : Nat) : List Nat :=
  [v / 16777216 % 256, v / 65536 % 256, v / 256 % 256, v % 256]

/-- Value of four big-endian bytes. -/
def beVal (b0 b1 b2 b3 : Nat) : Nat :=
  ((b0 * 256 + b1) * 256 + b2) * 256 + b3

/-- Two-complement unsigned image of a signed 32-bit value. -/
def toU32 (v : Int) : Nat := (v % 4294967296).toNat

/-- Signed 32-bit value of an unsigned word below 2^32. -/
def fromI32 (n : Nat) : Int :=
  if n < 2147483648 then (n : Int) else (n : Int) - 4294967296

/-- 32-bit wrapping signed addition, as Rust release-mode `i32` addition. -/
def i32add (a b : Int) : Int := fromI32 (toU32 (a + b))

/-- `stream.write_u32::<BigEndian>(v)`: appends the 4 big-endian bytes.
Writing to the model sink always succeeds, so the discarded io Result
of the source (`.ok()`) has no error case to drop. -/
def write_u32 (v : Nat) (s : Stream) : Stream :=
  ⟨s.input, s.output ++ beBytes (v % 4294967296)⟩

/-- `stream.write_i32::<BigEndian>(v)`: two-complement image, big-endian. -/
def write_i32 (v : Int) (s : Stream) : Stream :=
  write_u32 (toU32 v) s

/-- `stream.read_u32::<BigEndian>()`: consumes 4 bytes; `none` is the io
failure when fewer than 4 bytes remain. -/
def read_u32 (s : Stream) : Option (Nat × Stream) :=
  match s.input with
  | b0 :: b1 :: b2 :: b3 :: rest => some (beVal b0 b1 b2 b3, ⟨rest, s.output⟩)
  | _ => none

/-- `stream.read_i32::<BigEndian>()`: signed view of `read_u32`. -/
def read_i32 (s : Stream) : Option (Int × Stream) :=
  (read_u32 s).map fun p => (fromI32 p.1, p.2)

/-- The decoded status header.  Modelled from the spec: status.rs is not
under src/.  The spec maps the signed 32-bit code through a total
function whose only non-error variant is Success, with a catch-all for
unknown codes; the concrete scenario in the spec fixes code 0 as
Success.  The model keeps the raw code on every non-Success variant. -/
inductive Status where
  | success
  | failure (code : Int)
deriving DecidableEq

/-- Modelled from the spec: the total code-to-variant mapping of status.rs. -/
def Status.fromCode (c : Int) : Status :=
  if c = 0 then .success else .failure c

/-- The error type of src/src/error.rs. -/
inductive Error where
  | SanedError (status : Status)
  | BadNetworkDataError (msg : String)
  | FromUtf8Error
  | IOError
deriving DecidableEq

/-- Result of running one embedded Rust function on a stream. -/
inductive Outcome (α : Type) where
  | ok (value : α) (s : Stream)
  | err (e : Error) (s : Stream)
  | panic (s : Stream)
deriving DecidableEq

/-- The stream state a function left behind, on every path. -/
def Outcome.stream {α : Type} : Outcome α → Stream
  | .ok _ s => s
  | .err _ s => s
  | .panic s => s

/-- Whether the function returned `Ok`. -/
def Outcome.isOk {α : Type} : Outcome α → Bool
  | .ok _ _ => true
  | _ => false

/-- Whether the function panicked. -/
def Outcome.isPanic {α : Type} : Outcome α → Bool
  | .panic _ => true
  | _ => false

/-- Rust `?` on a `Result`: propagate errors and panics, continue on `Ok`. -/
def Outcome.bind {α β : Type} (o : Outcome α) (k : α → Stream → Outcome β) : Outcome β :=
  match o with
  | .ok a s => k a s
  | .err e s => .err e s
  | .panic s => .panic s

/-- Rust `.ok()` on a `Result<(), _>` used purely for effect: the error
value is discarded but the stream state is kept; a panic still unwinds. -/
def ignoreErr (o : Outcome Unit) (k : Stream → Outcome Unit) : Outcome Unit :=
  match o with
  | .ok _ s => k s
  | .err _ s => k s
  | .panic s => .panic s

/-- Reading an `i32` with `?`: a short read surfaces as `Error::IOError`. -/
def read_i32_try (s : Stream) : Outcome Int :=
  match read_i32 s with
  | some (v, s1) => .ok v s1
  | none => .err .IOError s

/-- `read_status` of lib.rs: `Ok(Status::from(stream.read_i32()?))`. -/
def read_status (s : Stream) : Outcome Status :=
  Outcome.bind (read_i32_try s) fun v s1 => .ok (Status.fromCode v) s1

/-- `check_success_status` of lib.rs: read the status, succeed on
`Status::Success`, otherwise return the status mapped into `Error`. -/
def check_success_status (s : Stream) : Outcome Unit :=
  match read_status s with
  | .ok .success s1 => .ok () s1
  | .ok st s1 => .err (.SanedError st) s1
  | .err e s1 => .err e s1
  | .panic s1 => .panic s1

/-- The message of the length guard of `write_string` in lib.rs. -/
def badLengthMessage (n : Nat) : String :=
  "String length of " ++ toString n ++ " exceeds maximum possible length of 2147483647!"

/-- `write_string` of lib.rs.  The argument is the byte content of the
UTF-8 string.  The guard rejects lengths above `i32::max_value()`;
otherwise the length is cast to `i32` (lossless under the guard, so the
`assert!` of the source always passes), incremented with 32-bit
arithmetic, and written big-endian, followed by the string bytes and one
NUL byte. -/
def write_string (string : List Nat) (s : Stream) : Outcome Unit :=
  if string.length > 2147483647 then
    .err (.BadNetworkDataError (badLengthMessage string.length)) s
  else
    let length : Int := (string.length : Int)
    let length : Int := i32add length 1
    let s := write_i32 length s
    let s : Stream := ⟨s.input, s.output ++ string⟩
    let s : Stream := ⟨s.input, s.output ++ [0]⟩
    .ok () s

/-- `SANE_VERSION` of lib.rs: 0x01000003. -/
def SANE_VERSION : Nat := 16777219

/-- The byte content of the identifying string "Foobar" sent by `init`. -/
def foobar : List Nat := [70, 111, 111, 98, 97, 114]

/-- `init` of lib.rs.  Writes the zero word, the protocol version and the
string "Foobar"; the io results of the writes and the status check are
discarded with `.ok()`.  The version word is then read with `unwrap()`
(a short read panics) and printed; the function returns unit. -/
def init (s : Stream) : Outcome Unit :=
  let s := write_u32 0 s
  let s := write_u32 SANE_VERSION s
  ignoreErr (write_string foobar s) fun s =>
  ignoreErr (check_success_status s) fun s =>
  match read_u32 s with
  | some (_version, s1) => .ok () s1
  | none => .panic s

/-- `Device` of src/src/device.rs (file not under src/); the spec gives
its fields as `{ kind, vendor, model, name }`, all strings.  Strings are
kept as their byte content. -/
structure Device where
  kind : List Nat
  vendor : List Nat
  model : List Nat
  name : List Nat
deriving DecidableEq

/-- `OpenResult` of lib.rs. -/
inductive OpenResult where
  | Handle (h : Int)
  | AuthRequired (resource : List Nat)
deriving DecidableEq

/-- Modelled from the spec: the `TryFromStream` impl for `String`
(types.rs is not under src/).  Decoding reads the 4-byte length field,
fails when it is not positive, reads that many bytes and drops the
trailing NUL; a short read is an io failure.  UTF-8 validation is not
modelled — strings stay byte lists and no claim examines it. -/
def decode_string (s : Stream) : Outcome (List Nat) :=
  Outcome.bind (read_i32_try s) fun len s1 =>
    if len ≤ 0 then .err (.BadNetworkDataError "invalid string length") s1
    else
      let n := len.toNat
      if s1.input.length < n then .err .IOError s1
      else .ok ((s1.input.take n).dropLast) ⟨s1.input.drop n, s1.output⟩

/-- Modelled from the spec: the `TryFromStream` impl for `Option<String>`
(types.rs is not under src/).  Per the spec, presence is inferred from
the length field itself: a length of 0 or 1 signals absence; a longer
length is decoded as for `String`. -/
def decode_option_string (s : Stream) : Outcome (Option (List Nat)) :=
  Outcome.bind (read_i32_try s) fun len s1 =>
    if len < 0 then .err (.BadNetworkDataError "invalid string length") s1
    else if len = 0 then .ok none s1
    else
      let n := len.toNat
      if s1.input.length < n then .err .IOError s1
      else if len = 1 then .ok none ⟨s1.input.drop n, s1.output⟩
      else .ok (some ((s1.input.take n).dropLast)) ⟨s1.input.drop n, s1.output⟩

/-- Modelled from the spec: the `TryFromStream` impl for `Device`
(device.rs is not under src/).  The spec gives the field order on the
wire as kind, vendor, model, name. -/
def decode_device (s : Stream) : Outcome Device :=
  Outcome.bind (decode_string s) fun kind s =>
  Outcome.bind (decode_string s) fun vendor s =>
  Outcome.bind (decode_string s) fun model s =>
  Outcome.bind (decode_string s) fun name s =>
  .ok ⟨kind, vendor, model, name⟩ s

/-- Modelled from the spec: the `TryFromStream` impl for `Option<Device>`.
An optional record carries a 32-bit presence discriminator: zero means a
record follows, a nonzero word is the absent marker. -/
def decode_option_device (s : Stream) : Outcome (Option Device) :=
  Outcome.bind (read_i32_try s) fun flag s =>
    if flag = 0 then
      Outcome.bind (decode_device s) fun d s => .ok (some d) s
    else .ok none s

/-- Modelled from the spec: the `TryFromStream` impl for
`Vec<Option<Device>>`.  Elements are decoded in sequence until the
absent-marker terminator, which ends the vector and is kept as its last
(`none`) element; nothing is read past it.  The fuel argument only
serves Lean termination: every step consumes at least 4 input bytes. -/
def decode_device_list_aux : Nat → Stream → Outcome (List (Option Device))
  | 0, s => .err .IOError s
  | fuel + 1, s =>
    Outcome.bind (decode_option_device s) fun d s1 =>
      match d with
      | none => .ok [none] s1
      | some dev =>
        Outcome.bind (decode_device_list_aux fuel s1) fun rest s2 =>
          .ok (some dev :: rest) s2

/-- Entry point of the device-list decoder; the initial fuel bounds the
number of elements by the number of available bytes. -/
def decode_device_list (s : Stream) : Outcome (List (Option Device)) :=
  decode_device_list_aux (s.input.length + 1) s

/-- `OptionDescriptor` of types.rs (file not under src/), modelled from
the spec field list: name/title/description strings, then type, unit,
size and capabilities words, then the constraint.  The wire layout of
the constraint is not given by the spec and no claim examines it; it is
modelled as a single 32-bit word. -/
structure OptionDescriptor where
  name : List Nat
  title : List Nat
  description : List Nat
  ty : Int
  unit : Int
  size : Int
  capabilities : Int
  constraint : Int
deriving DecidableEq

/-- Modelled from the spec: decoder for one `OptionDescriptor` record. -/
def decode_option_descriptor (s : Stream) : Outcome OptionDescriptor :=
  Outcome.bind (decode_string s) fun name s =>
  Outcome.bind (decode_string s) fun title s =>
  Outcome.bind (decode_string s) fun description s =>
  Outcome.bind (read_i32_try s) fun ty s =>
  Outcome.bind (read_i32_try s) fun unit s =>
  Outcome.bind (read_i32_try s) fun size s =>
  Outcome.bind (read_i32_try s) fun capabilities s =>
  Outcome.bind (read_i32_try s) fun constraint s =>
  .ok ⟨name, title, description, ty, unit, size, capabilities, constraint⟩ s

/-- Modelled from the spec: decoder for `Option<OptionDescriptor>`, with
the same presence discriminator convention as for records generally. -/
def decode_option_option_descriptor (s : Stream) : Outcome (Option OptionDescriptor) :=
  Outcome.bind (read_i32_try s) fun flag s =>
    if flag = 0 then
      Outcome.bind (decode_option_descriptor s) fun d s => .ok (some d) s
    else .ok none s

/-- Modelled from the spec: decoder for `Vec<Option<OptionDescriptor>>`,
terminated by the absent marker exactly as the device list. -/
def decode_option_descriptor_list_aux : Nat → Stream → Outcome (List (Option OptionDescriptor))
  | 0, s => .err .IOError s
  | fuel + 1, s =>
    Outcome.bind (decode_option_option_descriptor s) fun d s1 =>
      match d with
      | none => .ok [none] s1
      | some descr =>
        Outcome.bind (decode_option_descriptor_list_aux fuel s1) fun rest s2 =>
          .ok (some descr :: rest) s2

/-- Entry point of the option-descriptor-list decoder. -/
def decode_option_descriptor_list (s : Stream) : Outcome (List (Option OptionDescriptor)) :=
  decode_option_descriptor_list_aux (s.input.length + 1) s

/-- `request_device_list` of lib.rs: write opcode 1, check the status,
decode the vector of optional devices and keep the present entries in
order (`filter(is_some).map(unwrap)`). -/
def request_device_list (s : Stream) : Outcome (List Device) :=
  let s := write_i32 1 s
  Outcome.bind (check_success_status s) fun _ s =>
  Outcome.bind (decode_device_list s) fun dev_list s =>
  .ok (dev_list.filterMap id) s

/-- `open_device` of lib.rs: write opcode 2 and the device name, check
the status, read the handle with `unwrap()` (a short read panics), then
decode the optional authentication resource and dispatch on it. -/
def open_device (device : Device) (s : Stream) : Outcome OpenResult :=
  let s := write_i32 2 s
  Outcome.bind (write_string device.name s) fun _ s =>
  Outcome.bind (check_success_status s) fun _ s =>
  match read_i32 s with
  | none => .panic s
  | some (handle, s) =>
    Outcome.bind (decode_option_string s) fun resource s =>
      match resource with
      | none => .ok (.Handle handle) s
      | some resource => .ok (.AuthRequired resource) s

/-- `close_device` of lib.rs: write opcode 3 and the handle, then read
and discard the 4-byte dummy with `unwrap()`.  No status check. -/
def close_device (handle : Int) (s : Stream) : Outcome Unit :=
  let s := write_i32 3 s
  let s := write_i32 handle s
  match read_i32 s with
  | none => .panic s
  | some (_dummy, s1) => .ok () s1

/-- `get_option_descriptors` of lib.rs: write opcode 4 and the handle,
then decode the vector of optional descriptors.  No status check
appears in the source. -/
def get_option_descriptors (handle : Int) (s : Stream) : Outcome (List (Option OptionDescriptor)) :=
  let s := write_i32 4 s
  let s := write_i32 handle s
  decode_option_descriptor_list s

/-- Server-side wire image of a string per the spec wire-format table:
length word `L + 1`, the `L` bytes, one NUL byte. -/
def stringWire (str : List Nat) : List Nat :=
  beBytes (str.length + 1) ++ str ++ [0]

/-- Server-side wire image of a present device record: presence word
zero, then the four field strings in spec order. -/
def deviceWire (d : Device) : List Nat :=
  beBytes 0 ++ stringWire d.kind ++ stringWire d.vendor ++
    stringWire d.model ++ stringWire d.name

/-- The absent-marker word that terminates record arrays. -/
def absentMarker : List Nat := beBytes 1

/-- Server-side wire image of a device array: the records, then the
absent marker. -/
def deviceListWire (ds : List Device) : List Nat :=
  (ds.map deviceWire).flatten ++ absentMarker

/-- A string short enough for its length word to stay in signed 32-bit
range on both the encode and decode side. -/
def shortString (str : List Nat) : Prop := str.length ≤ 2147483646

/-- A device all four field strings of which are short. -/
def shortDevice (d : Device) : Prop :=
  shortString d.kind ∧ shortString d.vendor ∧ shortString d.model ∧ shortString d.name

/-- The full byte sequence `init` writes. -/
def initRequestBytes : List Nat :=
  beBytes 0 ++ beBytes SANE_VERSION ++ beBytes 7 ++ foobar ++ [0]

/-- The longest string the length guard of `write_string` accepts: its
byte length is exactly `i32::max_value()`. -/
def boundaryString : List Nat := List.replicate 2147483647 0

/-- The first device of the concrete ListDevices scenario in the spec:
kind "scanner", vendor "Acme", model "X100", name "net:1". -/
def acmeX100 : Device :=
  ⟨[115, 99, 97, 110, 110, 101, 114], [65, 99, 109, 101],
   [88, 49, 48, 48], [110, 101, 116, 58, 49]⟩

/-- The second device of the concrete ListDevices scenario in the spec:
kind "scanner", vendor "Acme", model "X200", name "net:2". -/
def acmeX200 : Device :=
  ⟨[115, 99, 97, 110, 110, 101, 114], [65, 99, 109, 101],
   [88, 50, 48, 48], [110, 101, 116, 58, 50]⟩

instance (str : List Nat) : Decidable (shortString str) := by
  unfold shortString
  infer_instance

instance (d : Device) : Decidable (shortDevice d) := by
  unfold shortDevice
  infer_instance

/-! ### Arithmetic facts about the 32-bit model -/

theorem toU32_lt (v : Int) : toU32 v < 4294967296 := by
  simp only [toU32]
  omega

theorem toU32_ofNat (v : Nat) (h : v < 4294967296) : toU32 (v : Int) = v := by
  simp only [toU32]
  omega

theorem fromI32_ofNat (v : Nat) (h : v < 2147483648) : fromI32 v = v := by
  simp [fromI32, h]

theorem fromI32_toU32 (v : Int) (h1 : -2147483648 ≤ v) (h2 : v < 2147483648) :
    fromI32 (toU32 v) = v := by
  simp only [fromI32, toU32]
  split <;> omega

theorem i32add_one_small (n : Nat) (h : n ≤ 2147483646) :
    i32add (n : Int) 1 = ((n + 1 : Nat) : Int) := by
  have h1 : ((n : Int) + 1) = ((n + 1 : Nat) : Int) := by push_cast; ring
  rw [i32add, h1, toU32_ofNat _ (by omega), fromI32_ofNat _ (by omega)]

/-! ### Round trips of the primitive codec -/

theorem read_u32_beBytes (v : Nat) (rest out : List Nat) (h : v < 4294967296) :
    read_u32 ⟨beBytes v ++ rest, out⟩ = some (v, ⟨rest, out⟩) := by
  simp only [read_u32, beBytes, List.cons_append, List.nil_append, beVal]
  congr 2
  omega

theorem read_i32_beBytes_nat (v : Nat) (rest out : List Nat) (h : v < 2147483648) :
    read_i32 ⟨beBytes v ++ rest, out⟩ = some ((v : Int), ⟨rest, out⟩) := by
  simp [read_i32, read_u32_beBytes v rest out (by omega), fromI32_ofNat v h]

theorem read_i32_beBytes_toU32 (v : Int) (rest out : List Nat)
    (h1 : -2147483648 ≤ v) (h2 : v < 2147483648) :
    read_i32 ⟨beBytes (toU32 v) ++ rest, out⟩ = some (v, ⟨rest, out⟩) := by
  simp [read_i32, read_u32_beBytes (toU32 v) rest out (toU32_lt v), fromI32_toU32 v h1 h2]

theorem read_i32_try_beBytes_nat (v : Nat) (rest out : List Nat) (h : v < 2147483648) :
    read_i32_try ⟨beBytes v ++ rest, out⟩ = .ok (v : Int) ⟨rest, out⟩ := by
  simp [read_i32_try, read_i32_beBytes_nat v rest out h]

theorem read_i32_try_beBytes_toU32 (v : Int) (rest out : List Nat)
    (h1 : -2147483648 ≤ v) (h2 : v < 2147483648) :
    read_i32_try ⟨beBytes (toU32 v) ++ rest, out⟩ = .ok v ⟨rest, out⟩ := by
  simp [read_i32_try, read_i32_beBytes_toU32 v rest out h1 h2]

/-! ### Behaviour of the status check -/

theorem read_status_wire (c : Int) (rest out : List Nat)
    (h1 : -2147483648 ≤ c) (h2 : c < 2147483648) :
    read_status ⟨beBytes (toU32 c) ++ rest, out⟩ = .ok (Status.fromCode c) ⟨rest, out⟩ := by
  simp [read_status, read_i32_try_beBytes_toU32 c rest out h1 h2, Outcome.bind]

theorem check_success_status_zero (rest out : List Nat) :
    check_success_status ⟨beBytes 0 ++ rest, out⟩ = .ok () ⟨rest, out⟩ := by
  have h0 : toU32 0 = 0 := by simp [toU32]
  have := read_status_wire 0 rest out (by omega) (by omega)
  rw [h0] at this
  simp [check_success_status, this, Status.fromCode]

theorem check_success_status_nonzero (c : Int) (rest out : List Nat)
    (hc : c ≠ 0) (h1 : -2147483648 ≤ c) (h2 : c < 2147483648) :
    check_success_status ⟨beBytes (toU32 c) ++ rest, out⟩ =
      .err (.SanedError (.failure c)) ⟨rest, out⟩ := by
  rw [check_success_status, read_status_wire c rest out h1 h2]
  simp [Status.fromCode, hc]

/-! ### Behaviour of write_string -/

theorem write_string_too_long (str : List Nat) (s : Stream) (h : str.length > 2147483647) :
    write_string str s = .err (.BadNetworkDataError (badLengthMessage str.length)) s := by
  simp [write_string, h]

theorem write_string_short (str : List Nat) (s : Stream) (h : str.length ≤ 2147483646) :
    write_string str s = .ok () ⟨s.input, s.output ++ stringWire str⟩ := by
  rw [write_string, if_neg (by omega)]
  simp only [write_i32, write_u32, i32add_one_small str.length h,
    toU32_ofNat (str.length + 1) (by omega),
    Nat.mod_eq_of_lt (show str.length + 1 < 4294967296 by omega)]
  simp [stringWire, List.append_assoc]

/-! ### Round trips of the composite decoder -/

theorem decode_string_wire (str rest out : List Nat) (h : str.length + 1 < 2147483648) :
    decode_string ⟨stringWire str ++ rest, out⟩ = .ok str ⟨rest, out⟩ := by
  have hw : stringWire str ++ rest = beBytes (str.length + 1) ++ ((str ++ [0]) ++ rest) := by
    simp [stringWire, List.append_assoc]
  rw [hw, decode_string, read_i32_try_beBytes_nat (str.length + 1) _ out h]
  simp only [Outcome.bind]
  rw [if_neg (by push_cast; omega)]
  rw [if_neg (by simp only [List.length_append, List.length_cons, List.length_nil,
    Int.toNat_ofNat]; omega)]
  rw [List.take_left' (by simp), List.drop_left' (by simp)]
  simp

theorem decode_option_string_absent (rest out : List Nat) :
    decode_option_string ⟨beBytes 0 ++ rest, out⟩ = .ok none ⟨rest, out⟩ := by
  rw [decode_option_string, read_i32_try_beBytes_nat 0 rest out (by omega)]
  simp [Outcome.bind]

theorem decode_option_string_present (str rest out : List Nat)
    (h1 : 1 ≤ str.length) (h2 : str.length + 1 < 2147483648) :
    decode_option_string ⟨stringWire str ++ rest, out⟩ = .ok (some str) ⟨rest, out⟩ := by
  have hw : stringWire str ++ rest = beBytes (str.length + 1) ++ ((str ++ [0]) ++ rest) := by
    simp [stringWire, List.append_assoc]
  rw [hw, decode_option_string, read_i32_try_beBytes_nat (str.length + 1) _ out h2]
  simp only [Outcome.bind]
  rw [if_neg (by push_cast; omega)]
  rw [if_neg (by push_cast; omega)]
  rw [if_neg (by simp only [List.length_append, List.length_cons, List.length_nil,
    Int.toNat_ofNat]; omega)]
  rw [if_neg (by push_cast; omega)]
  rw [List.take_left' (by simp), List.drop_left' (by simp)]
  simp

theorem decode_device_wire (d : Device) (rest out : List Nat) (h : shortDevice d) :
    decode_device ⟨stringWire d.kind ++ (stringWire d.vendor ++ (stringWire d.model ++
      (stringWire d.name ++ rest))), out⟩ = .ok d ⟨rest, out⟩ := by
  obtain ⟨hk, hv, hm, hn⟩ := h
  simp only [shortString] at hk hv hm hn
  rw [decode_device, decode_string_wire _ _ _ (by omega)]
  simp only [Outcome.bind]
  rw [decode_string_wire _ _ _ (by omega)]
  simp only [Outcome.bind]
  rw [decode_string_wire _ _ _ (by omega)]
  simp only [Outcome.bind]
  rw [decode_string_wire _ _ _ (by omega)]

theorem decode_option_device_present (d : Device) (rest out : List Nat) (h : shortDevice d) :
    decode_option_device ⟨deviceWire d ++ rest, out⟩ = .ok (some d) ⟨rest, out⟩ := by
  have hw : deviceWire d ++ rest = beBytes 0 ++ (stringWire d.kind ++ (stringWire d.vendor ++
      (stringWire d.model ++ (stringWire d.name ++ rest)))) := by
    simp [deviceWire, List.append_assoc]
  rw [hw, decode_option_device, read_i32_try_beBytes_nat 0 _ out (by omega)]
  simp only [Outcome.bind, Nat.cast_zero, if_pos]
  rw [decode_device_wire d rest out h]

theorem decode_option_device_absent (rest out : List Nat) :
    decode_option_device ⟨absentMarker ++ rest, out⟩ = .ok none ⟨rest, out⟩ := by
  rw [absentMarker, decode_option_device, read_i32_try_beBytes_nat 1 rest out (by omega)]
  simp [Outcome.bind]

theorem deviceListWire_cons (d : Device) (ds : List Device) :
    deviceListWire (d :: ds) = deviceWire d ++ deviceListWire ds := by
  simp [deviceListWire, List.append_assoc]

theorem length_le_deviceListWire (ds : List Device) :
    ds.length ≤ (deviceListWire ds).length := by
  induction ds with
  | nil => simp [deviceListWire, absentMarker, beBytes]
  | cons d ds ih =>
    rw [deviceListWire_cons]
    have hd : 4 ≤ (deviceWire d).length := by
      simp [deviceWire, beBytes, List.length_append]
    simp only [List.length_append, List.length_cons]
    omega

theorem decode_device_list_aux_wire (ds : List Device) :
    ∀ fuel : Nat, ds.length + 1 ≤ fuel → ∀ rest out : List Nat,
      (∀ d ∈ ds, shortDevice d) →
      decode_device_list_aux fuel ⟨deviceListWire ds ++ rest, out⟩ =
        .ok (ds.map some ++ [none]) ⟨rest, out⟩ := by
  induction ds with
  | nil =>
    intro fuel hf rest out _
    cases fuel with
    | zero => omega
    | succ f =>
      have hw : deviceListWire [] ++ rest = absentMarker ++ rest := by
        simp [deviceListWire]
      rw [hw, decode_device_list_aux, decode_option_device_absent rest out]
      simp [Outcome.bind]
  | cons d ds ih =>
    intro fuel hf rest out hshort
    cases fuel with
    | zero => simp at hf
    | succ f =>
      rw [deviceListWire_cons]
      have hw : (deviceWire d ++ deviceListWire ds) ++ rest =
          deviceWire d ++ (deviceListWire ds ++ rest) := by
        simp [List.append_assoc]
      rw [hw, decode_device_list_aux,
        decode_option_device_present d _ out (hshort d (by simp))]
      simp only [Outcome.bind]
      rw [ih f (by simp at hf; omega) rest out (fun x hx => hshort x (by simp [hx]))]
      simp [Outcome.bind]

theorem decode_device_list_wire (ds : List Device) (rest out : List Nat)
    (h : ∀ d ∈ ds, shortDevice d) :
    decode_device_list ⟨deviceListWire ds ++ rest, out⟩ =
      .ok (ds.map some ++ [none]) ⟨rest, out⟩ := by
  rw [decode_device_list]
  apply decode_device_list_aux_wire ds _ _ rest out h
  have := length_le_deviceListWire ds
  simp only [List.length_append]
  omega

/-! ### Behaviour of the command layer -/

theorem write_i32_eq (v : Int) (s : Stream) :
    write_i32 v s = ⟨s.input, s.output ++ beBytes (toU32 v)⟩ := by
  simp [write_i32, write_u32, Nat.mod_eq_of_lt (toU32_lt v)]

theorem read_u32_short (s : Stream) (h : s.input.length < 4) : read_u32 s = none := by
  rcases s with ⟨inp, out⟩
  rcases inp with _ | ⟨a, _ | ⟨b, _ | ⟨c, _ | ⟨d, l⟩⟩⟩⟩ <;> (simp_all [read_u32]; try omega)

/-- Whatever the status word says, `check_success_status` followed by
`.ok()` hands the continuation the stream with the status word consumed
when four bytes were available, and the untouched stream otherwise. -/
theorem ignoreErr_check (s : Stream) (k : Stream → Outcome Unit) :
    ignoreErr (check_success_status s) k =
      match s.input with
      | b0 :: b1 :: b2 :: b3 :: rest =>
        (fun _ _ _ _ => k ⟨rest, s.output⟩) b0 b1 b2 b3
      | _ => k s := by
  rcases s with ⟨inp, out⟩
  rcases inp with _ | ⟨a, _ | ⟨b, _ | ⟨c, _ | ⟨d, l⟩⟩⟩⟩ <;>
    simp only [check_success_status, read_status, read_i32_try, read_i32, read_u32,
      Outcome.bind, ignoreErr, Option.map]
  case cons.cons.cons.cons =>
    rcases hv : Status.fromCode (fromI32 (beVal a b c d)) with _ | code <;> simp

theorem request_device_list_zero_status (ds : List Device) (rest out : List Nat)
    (h : ∀ d ∈ ds, shortDevice d) :
    request_device_list ⟨beBytes 0 ++ (deviceListWire ds ++ rest), out⟩ =
      .ok ds ⟨rest, out ++ beBytes 1⟩ := by
  have e1 : toU32 1 = 1 := by decide
  rw [request_device_list, write_i32_eq, e1]
  simp only
  rw [check_success_status_zero]
  simp only [Outcome.bind]
  rw [decode_device_list_wire ds rest _ h]
  simp only [Outcome.bind]
  simp [List.filterMap_append, List.filterMap_map, Function.comp]

theorem request_device_list_bad_status (c : Int) (rest out : List Nat)
    (hc : c ≠ 0) (h1 : -2147483648 ≤ c) (h2 : c < 2147483648) :
    request_device_list ⟨beBytes (toU32 c) ++ rest, out⟩ =
      .err (.SanedError (.failure c)) ⟨rest, out ++ beBytes 1⟩ := by
  have e1 : toU32 1 = 1 := by decide
  rw [request_device_list, write_i32_eq, e1]
  simp only
  rw [check_success_status_nonzero c rest _ hc h1 h2]
  all_goals simp [Outcome.bind]

theorem open_device_success_absent (d : Device) (h : Int) (rest out : List Nat)
    (hd : shortString d.name) (h1 : -2147483648 ≤ h) (h2 : h < 2147483648) :
    open_device d ⟨beBytes 0 ++ (beBytes (toU32 h) ++ (beBytes 0 ++ rest)), out⟩ =
      .ok (.Handle h) ⟨rest, (out ++ beBytes 2) ++ stringWire d.name⟩ := by
  have e2 : toU32 2 = 2 := by decide
  rw [open_device, write_i32_eq, e2]
  simp only
  rw [write_string_short d.name _ hd]
  simp only [Outcome.bind]
  rw [check_success_status_zero]
  simp only [Outcome.bind]
  rw [read_i32_beBytes_toU32 h _ _ h1 h2]
  simp only
  rw [decode_option_string_absent]

theorem open_device_success_present (d : Device) (h : Int) (r rest out : List Nat)
    (hd : shortString d.name) (hr1 : 1 ≤ r.length) (hr2 : r.length + 1 < 2147483648)
    (h1 : -2147483648 ≤ h) (h2 : h < 2147483648) :
    open_device d ⟨beBytes 0 ++ (beBytes (toU32 h) ++ (stringWire r ++ rest)), out⟩ =
      .ok (.AuthRequired r) ⟨rest, (out ++ beBytes 2) ++ stringWire d.name⟩ := by
  have e2 : toU32 2 = 2 := by decide
  rw [open_device, write_i32_eq, e2]
  simp only
  rw [write_string_short d.name _ hd]
  simp only [Outcome.bind]
  rw [check_success_status_zero]
  simp only [Outcome.bind]
  rw [read_i32_beBytes_toU32 h _ _ h1 h2]
  simp only
  rw [decode_option_string_present r rest _ hr1 hr2]

theorem open_device_bad_status (d : Device) (c : Int) (rest out : List Nat)
    (hd : shortString d.name)
    (hc : c ≠ 0) (h1 : -2147483648 ≤ c) (h2 : c < 2147483648) :
    open_device d ⟨beBytes (toU32 c) ++ rest, out⟩ =
      .err (.SanedError (.failure c)) ⟨rest, (out ++ beBytes 2) ++ stringWire d.name⟩ := by
  have e2 : toU32 2 = 2 := by decide
  rw [open_device, write_i32_eq, e2]
  simp only
  rw [write_string_short d.name _ hd]
  simp only [Outcome.bind]
  rw [check_success_status_nonzero c rest _ hc h1 h2]

theorem foobar_write (s : Stream) :
    write_string foobar s = .ok () ⟨s.input, s.output ++ stringWire foobar⟩ :=
  write_string_short foobar s (by decide)

theorem ignoreErr_ok (s : Stream) (k : Stream → Outcome Unit) :
    ignoreErr (.ok () s) k = k s := rfl

theorem write_u32_zero (s : Stream) : write_u32 0 s = ⟨s.input, s.output ++ beBytes 0⟩ := by
  simp [write_u32]

theorem write_u32_version (s : Stream) :
    write_u32 SANE_VERSION s = ⟨s.input, s.output ++ beBytes SANE_VERSION⟩ := by
  simp [write_u32, SANE_VERSION]

/-- Consuming the status word in `init`, whatever its value. -/
theorem ignoreErr_check_word (v : Nat) (rest out : List Nat) (k : Stream → Outcome Unit) :
    ignoreErr (check_success_status ⟨beBytes v ++ rest, out⟩) k = k ⟨rest, out⟩ := by
  rw [ignoreErr_check]
  simp [beBytes]

theorem init_output (inp out : List Nat) :
    ((init ⟨inp, out⟩).stream).output = out ++ initRequestBytes := by
  rw [init, write_u32_zero, write_u32_version, foobar_write]
  simp only [ignoreErr_ok]
  rw [ignoreErr_check]
  rcases inp with _ | ⟨a, _ | ⟨b, _ | ⟨c, _ | ⟨d, l⟩⟩⟩⟩
  all_goals try rcases l with _ | ⟨e, _ | ⟨f, _ | ⟨g, _ | ⟨i, m⟩⟩⟩⟩
  all_goals simp [read_u32, Outcome.stream, initRequestBytes, stringWire, foobar]

theorem init_status_and_version (st ver : Nat) (rest out : List Nat) (h : ver < 4294967296) :
    init ⟨beBytes st ++ (beBytes ver ++ rest), out⟩ = .ok () ⟨rest, out ++ initRequestBytes⟩ := by
  rw [init, write_u32_zero, write_u32_version, foobar_write]
  simp only [ignoreErr_ok]
  rw [ignoreErr_check_word st (beBytes ver ++ rest)]
  rw [read_u32_beBytes ver rest _ h]
  simp only
  congr 1
  simp [initRequestBytes, stringWire, foobar, List.append_assoc]

theorem init_short_input (inp out : List Nat) (h : inp.length < 8) :
    (init ⟨inp, out⟩).isPanic = true := by
  rw [init, write_u32_zero, write_u32_version, foobar_write]
  simp only [ignoreErr_ok]
  rw [ignoreErr_check]
  rcases inp with _ | ⟨a, _ | ⟨b, _ | ⟨c, _ | ⟨d, l⟩⟩⟩⟩
  all_goals try rcases l with _ | ⟨e, _ | ⟨f, _ | ⟨g, _ | ⟨i, m⟩⟩⟩⟩
  all_goals simp_all [read_u32, Outcome.isPanic]
  all_goals omega

theorem close_device_run (h : Int) (b0 b1 b2 b3 : Nat) (rest out : List Nat) :
    close_device h ⟨b0 :: b1 :: b2 :: b3 :: rest, out⟩ =
      .ok () ⟨rest, (out ++ beBytes 3) ++ beBytes (toU32 h)⟩ := by
  have e3 : toU32 3 = 3 := by decide
  rw [close_device]
  simp only [write_i32_eq, e3]
  simp [read_i32, read_u32]

theorem read_i32_short (s : Stream) (h : s.input.length < 4) : read_i32 s = none := by
  simp [read_i32, read_u32_short s h]

theorem close_device_short (h : Int) (s : Stream) (hs : s.input.length < 4) :
    (close_device h s).isPanic = true := by
  rw [close_device]
  simp only [write_i32_eq]
  rw [read_i32_short ⟨s.input, (s.output ++ beBytes (toU32 3)) ++ beBytes (toU32 h)⟩ hs]
  rfl

/-! ## The claims -/

/-- C1, counterexample: the claim says every command except CloseDevice
returns a status-mapped error on a non-Success status, reading no
payload bytes beyond the status field.  It fails for
GetOptionDescriptors, which performs no status check at all: with the
response starting with status code 9 (a non-Success code), the command
consumes that word as the array presence discriminator and returns Ok
with an empty descriptor list instead of a status-mapped error. -/
theorem C1_counterexample :
    Status.fromCode 9 ≠ .success ∧
    get_option_descriptors 5 ⟨beBytes 9, []⟩ = .ok [none] ⟨[], beBytes 4 ++ beBytes 5⟩ := by
  exact ⟨by decide, by decide⟩

/-- C1, amended: on a non-Success status code, ListDevices and
OpenDevice return the status-mapped typed error and consume exactly the
4-byte status word — the remaining input `rest` is untouched, so no
payload byte beyond the status field is read.  Init discards the result
of its status check and GetOptionDescriptors reads no status, so the
property holds only for these two commands. -/
theorem C1_theorem (c : Int) (d : Device) (rest out : List Nat)
    (hd : shortString d.name) (hc : c ≠ 0)
    (h1 : -2147483648 ≤ c) (h2 : c < 2147483648) :
    request_device_list ⟨beBytes (toU32 c) ++ rest, out⟩ =
      .err (.SanedError (.failure c)) ⟨rest, out ++ beBytes 1⟩ ∧
    open_device d ⟨beBytes (toU32 c) ++ rest, out⟩ =
      .err (.SanedError (.failure c)) ⟨rest, (out ++ beBytes 2) ++ stringWire d.name⟩ :=
  ⟨request_device_list_bad_status c rest out hc h1 h2,
   open_device_bad_status d c rest out hd hc h1 h2⟩

/-- C1, witness: the amended theorem at status code 9. -/
theorem C1_witness :
    request_device_list ⟨beBytes (toU32 9) ++ [1, 2, 3], []⟩ =
      .err (.SanedError (.failure 9)) ⟨[1, 2, 3], [] ++ beBytes 1⟩ ∧
    open_device ⟨[], [], [], [97]⟩ ⟨beBytes (toU32 9) ++ [1, 2, 3], []⟩ =
      .err (.SanedError (.failure 9)) ⟨[1, 2, 3], ([] ++ beBytes 2) ++ stringWire [97]⟩ :=
  C1_theorem 9 ⟨[], [], [], [97]⟩ [1, 2, 3] [] (by decide) (by decide) (by decide) (by decide)

/-- C2, counterexample: the claim quantifies over every accepted string,
but the guard also accepts the boundary string of byte length
`i32::max_value()` = 2^31 - 1, for which the emitted 4-byte length word
is the two-complement encoding of 2^31 — i.e. the bytes `[128, 0, 0, 0]`,
whose signed 32-bit value is -2^31, not L + 1. -/
theorem C2_counterexample :
    write_string boundaryString ⟨[], []⟩ =
      .ok () ⟨[], beBytes 2147483648 ++ boundaryString ++ [0]⟩ ∧
    beBytes 2147483648 = [128, 0, 0, 0] ∧
    fromI32 (beVal 128 0 0 0) ≠ (boundaryString.length : Int) + 1 := by
  have hlen : boundaryString.length = 2147483647 := by
    rw [show boundaryString = List.replicate 2147483647 0 from rfl, List.length_replicate]
  refine ⟨?_, by decide, ?_⟩
  · rw [write_string, if_neg (by omega)]
    simp only [hlen, Nat.cast_ofNat]
    have e : toU32 (i32add (2147483647 : Int) 1) % 4294967296 = 2147483648 := by decide
    simp only [write_i32, write_u32, e]
    simp [List.append_assoc]
  · rw [hlen]
    decide

/-- C2, amended: for every string whose byte length L is at most
2^31 - 2, the bytes written are exactly the 4-byte big-endian word
L + 1, the L string bytes, and one NUL byte.  (Only the boundary length
L = 2^31 - 1, where the length word overflows, must be excluded.) -/
theorem C2_theorem (str : List Nat) (s : Stream) (h : str.length ≤ 2147483646) :
    write_string str s =
      .ok () ⟨s.input, s.output ++ beBytes (str.length + 1) ++ str ++ [0]⟩ := by
  rw [write_string_short str s h]
  simp [stringWire, List.append_assoc]

/-- C2, witness: the amended theorem on the two-byte string "ab". -/
theorem C2_witness :
    write_string [97, 98] ⟨[], []⟩ =
      .ok () ⟨[], [] ++ beBytes ([97, 98].length + 1) ++ [97, 98] ++ [0]⟩ :=
  C2_theorem [97, 98] ⟨[], []⟩ (by decide)

/-- C3: in an OpenDevice exchange with Success status, an absent
resource field yields `Handle h` with `h` the transmitted handle word,
and a present resource string `r` yields `AuthRequired r`; the
`AuthRequired` result carries only the resource, and the second
conjunct holds for every transmitted handle value `h`, so the handle is
not exposed in that case. -/
theorem C3_theorem (d : Device) (h : Int) (r rest out : List Nat)
    (hd : shortString d.name) (h1 : -2147483648 ≤ h) (h2 : h < 2147483648)
    (hr1 : 1 ≤ r.length) (hr2 : r.length + 1 < 2147483648) :
    open_device d ⟨beBytes 0 ++ (beBytes (toU32 h) ++ (beBytes 0 ++ rest)), out⟩ =
      .ok (.Handle h) ⟨rest, (out ++ beBytes 2) ++ stringWire d.name⟩ ∧
    open_device d ⟨beBytes 0 ++ (beBytes (toU32 h) ++ (stringWire r ++ rest)), out⟩ =
      .ok (.AuthRequired r) ⟨rest, (out ++ beBytes 2) ++ stringWire d.name⟩ :=
  ⟨open_device_success_absent d h rest out hd h1 h2,
   open_device_success_present d h r rest out hd hr1 hr2 h1 h2⟩

/-- C3, witness: the spec scenario — status 0, handle 42, absent
resource gives `Handle 42`; with resource "r" present it gives
`AuthRequired`. -/
theorem C3_witness :
    open_device ⟨[], [], [], [110]⟩
        ⟨beBytes 0 ++ (beBytes (toU32 42) ++ (beBytes 0 ++ [7])), []⟩ =
      .ok (.Handle 42) ⟨[7], ([] ++ beBytes 2) ++ stringWire [110]⟩ ∧
    open_device ⟨[], [], [], [110]⟩
        ⟨beBytes 0 ++ (beBytes (toU32 42) ++ (stringWire [114] ++ [7])), []⟩ =
      .ok (.AuthRequired [114]) ⟨[7], ([] ++ beBytes 2) ++ stringWire [110]⟩ :=
  C3_theorem ⟨[], [], [], [110]⟩ 42 [114] [7] []
    (by decide) (by decide) (by decide) (by decide) (by decide)

/-- C4: a ListDevices response carrying Success, then the wire images of
the devices `ds` in order, then the absent-marker terminator, makes
`request_device_list` return exactly `ds` — the present records in
received order, with the absent terminator entry removed. -/
theorem C4_theorem (ds : List Device) (rest out : List Nat)
    (h : ∀ d ∈ ds, shortDevice d) :
    request_device_list ⟨beBytes 0 ++ (deviceListWire ds ++ rest), out⟩ =
      .ok ds ⟨rest, out ++ beBytes 1⟩ :=
  request_device_list_zero_status ds rest out h

/-- C4, witness: the spec scenario — two Acme records then the
terminator give exactly those two devices in order. -/
theorem C4_witness :
    request_device_list ⟨beBytes 0 ++ (deviceListWire [acmeX100, acmeX200] ++ [9]), []⟩ =
      .ok [acmeX100, acmeX200] ⟨[9], [] ++ beBytes 1⟩ :=
  C4_theorem [acmeX100, acmeX200] [9] [] (by decide)

/-- C5, counterexample: the claim says a bad status during Init is
surfaced as a failure that aborts the session.  In the code the status
check result is discarded with `.ok()`: with status code 9 (a
non-Success code) on the wire, `init` still reads the version word and
completes, returning unit — no failure is surfaced, and the negotiated
version is printed rather than returned (the return type carries no
version at all). -/
theorem C5_counterexample :
    Status.fromCode 9 ≠ .success ∧
    init ⟨beBytes 9 ++ beBytes 66, []⟩ = .ok () ⟨[], initRequestBytes⟩ := by
  exact ⟨by decide, by decide⟩

/-- C5, amended: Init reads the 4-byte status word and then the 4-byte
version word, whatever the status code says, and completes returning
unit with the version consumed (it is printed, not returned); its only
failure mode is a panic when fewer than 8 bytes of response are
available for these two reads. -/
theorem C5_theorem (st ver : Nat) (rest out inp : List Nat)
    (hv : ver < 4294967296) (hshort : inp.length < 8) :
    init ⟨beBytes st ++ (beBytes ver ++ rest), out⟩ =
      .ok () ⟨rest, out ++ initRequestBytes⟩ ∧
    (init ⟨inp, out⟩).isPanic = true :=
  ⟨init_status_and_version st ver rest out hv, init_short_input inp out hshort⟩

/-- C5, witness: the amended theorem at status 9, version 42 and a
3-byte truncated response. -/
theorem C5_witness :
    init ⟨beBytes 9 ++ (beBytes 42 ++ [5]), []⟩ = .ok () ⟨[5], [] ++ initRequestBytes⟩ ∧
    (init ⟨[1, 2, 3], []⟩).isPanic = true :=
  C5_theorem 9 42 [5] [] [1, 2, 3] (by decide) (by decide)

/-- C6: any string of byte length above `i32::max_value()` = 2^31 - 1
makes `write_string` fail with the length-exceeded
`BadNetworkDataError`, leaving the stream exactly as it was — nothing
is truncated or written. -/
theorem C6_theorem (str : List Nat) (s : Stream) (h : str.length > 2147483647) :
    write_string str s = .err (.BadNetworkDataError (badLengthMessage str.length)) s :=
  write_string_too_long str s h

/-- C6, witness: a string of 2^31 bytes is rejected. -/
theorem C6_witness :
    write_string (List.replicate 2147483648 65) ⟨[], []⟩ =
      .err (.BadNetworkDataError (badLengthMessage (List.replicate 2147483648 65).length))
        ⟨[], []⟩ :=
  C6_theorem (List.replicate 2147483648 65) ⟨[], []⟩
    (by rw [List.length_replicate]; omega)

/-- C7: everything `init` writes, on every path, is exactly the zero
placeholder word, the protocol version word 0x01000003 = 16777219, and
the wire encoding of the identifying string "Foobar" (length word 7,
the six bytes, one NUL). -/
theorem C7_theorem (inp out : List Nat) :
    ((init ⟨inp, out⟩).stream).output = out ++ initRequestBytes ∧
    initRequestBytes =
      [0, 0, 0, 0, 1, 0, 0, 3, 0, 0, 0, 7, 70, 111, 111, 98, 97, 114, 0] :=
  ⟨init_output inp out, by decide⟩

/-- C8: CloseDevice writes opcode 3 and the handle as big-endian 32-bit
words, reads and discards one 4-byte value whatever it is, and returns
unit with no status check; with fewer than 4 response bytes it panics —
an io fault is its only failure mode. -/
theorem C8_theorem (h : Int) (b0 b1 b2 b3 : Nat) (rest out : List Nat) (s : Stream)
    (hs : s.input.length < 4) :
    close_device h ⟨b0 :: b1 :: b2 :: b3 :: rest, out⟩ =
      .ok () ⟨rest, (out ++ beBytes 3) ++ beBytes (toU32 h)⟩ ∧
    (close_device h s).isPanic = true :=
  ⟨close_device_run h b0 b1 b2 b3 rest out, close_device_short h s hs⟩

/-- C8, witness: handle 7, acknowledgement bytes 1 2 3 4, and a 2-byte
truncated response. -/
theorem C8_witness :
    close_device 7 ⟨[1, 2, 3, 4, 5], []⟩ =
      .ok () ⟨[5], ([] ++ beBytes 3) ++ beBytes (toU32 7)⟩ ∧
    (close_device 7 ⟨[1, 2], []⟩).isPanic = true :=
  C8_theorem 7 1 2 3 4 [5] [] ⟨[1, 2], []⟩ (by decide)

/-- C9: on the over-length error path `write_string` returns its
`BadNetworkDataError` before performing any write — the stream it leaves
behind is the unchanged input stream, so zero bytes were written. -/
theorem C9_theorem (str : List Nat) (s : Stream) (h : str.length > 2147483647) :
    (write_string str s).stream = s ∧ (write_string str s).isOk = false := by
  rw [write_string_too_long str s h]
  exact ⟨rfl, rfl⟩

/-- C9, witness: a string of 2^31 bytes leaves the stream untouched. -/
theorem C9_witness :
    (write_string (List.replicate 2147483648 66) ⟨[9], [7]⟩).stream = ⟨[9], [7]⟩ ∧
    (write_string (List.replicate 2147483648 66) ⟨[9], [7]⟩).isOk = false :=
  C9_theorem (List.replicate 2147483648 66) ⟨[9], [7]⟩
    (by rw [List.length_replicate]; omega)

/-- C10: the length guard accepts a string exactly when its byte length
L is at most 2^31 - 1; every accepted string with L at most 2^31 - 2
gets the exact length word L + 1; and at the boundary L = 2^31 - 1 the
guard still accepts while the 32-bit increment L + 1 wraps to -2^31
instead of the exact sum — the signed 32-bit addition overflows. -/
theorem C10_theorem :
    (∀ (str : List Nat) (s : Stream),
      (write_string str s).isOk = true ↔ str.length ≤ 2147483647) ∧
    (∀ (str : List Nat) (s : Stream), str.length ≤ 2147483646 →
      write_string str s =
        .ok () ⟨s.input, s.output ++ beBytes (str.length + 1) ++ str ++ [0]⟩) ∧
    (write_string boundaryString ⟨[], []⟩).isOk = true ∧
    i32add (2147483647 : Int) 1 = -2147483648 ∧
    i32add (2147483647 : Int) 1 ≠ (2147483647 : Int) + 1 := by
  refine ⟨?_, ?_, ?_, by decide, by decide⟩
  · intro str s
    rw [write_string]
    split
    · simp only [Outcome.isOk]
      constructor
      · intro hfalse
        exact absurd hfalse (by simp)
      · intro hle
        exact absurd hle (by omega)
    · simp only [Outcome.isOk]
      constructor
      · intro _
        omega
      · intro _
        trivial
  · intro str s h
    rw [write_string_short str s h]
    simp [stringWire, List.append_assoc]
  · have hlen : boundaryString.length = 2147483647 := by
      rw [show boundaryString = List.replicate 2147483647 0 from rfl, List.length_replicate]
    rw [write_string, if_neg (by omega)]
    rfl

/-- C10, witness: the exact-length-word conjunct on the one-byte
string "c". -/
theorem C10_witness :
    write_string [99] ⟨[], []⟩ =
      .ok () ⟨[], [] ++ beBytes ([99].length + 1) ++ [99] ++ [0]⟩ :=
  C10_theorem.2.1 [99] ⟨[], []⟩ (by decide)

end Sane
